import Mathlib

/-!
Verification of the resumable-simulation, statistics, cached-data and
gradient components of the `openff-evaluator` repository against its
specification.  The Lean definitions below are shallow embeddings of the
Python source:

* `StoredSimulationData`, `are_compatible`, `most_information` embed
  `propertyestimator/storage/data.py`.
* `degreesOfFreedom` and `writeStatisticsArray` embed the derived
  observable calculation of
  `propertyestimator/protocols/simulation.py` (`_write_statistics_array`
  and the degrees-of-freedom computation in `_simulate`).
* `loop`, `simulate` and `execute` embed the resumable engine
  `RunOpenMMSimulation.execute` / `_simulate` of the same file, as a
  state machine over a model file system together with an event trace.
* `centralDifferenceGradient` models the finite-difference gradient
  protocol from the specification (its implementation is not in the
  sources, only its test).
-/

namespace PropEst

/-- Thermodynamic state: a temperature and an optional pressure, both
modelled as optional rational numbers (`None` in Python becomes `none`). -/
structure ThermoState where
  temperature : Option ℚ
  pressure : Option ℚ
  deriving DecidableEq

/-- Embedding of `StoredSimulationData` from
`propertyestimator/storage/data.py`.  Field order and names follow the
source.  Python-side abstract value types (substance, phase, ids,
file names) are represented by `String`, the provenance dictionary by an
association list, the statistical inefficiency by a rational.  The fields
marked `ComparisonBehaviour.Ignore` in the source are
`source_calculation_id`, `provenance`, `coordinate_file_name`,
`trajectory_file_name`, `statistics_file_name` and
`statistical_inefficiency`. -/
structure StoredSimulationData where
  substance : String
  thermodynamic_state : ThermoState
  property_phase : String
  source_calculation_id : String
  provenance : List (String × String)
  force_field_id : String
  coordinate_file_name : String
  trajectory_file_name : String
  statistics_file_name : String
  statistical_inefficiency : ℚ
  total_number_of_molecules : ℕ
  deriving DecidableEq

/-- Embedding of `StoredSimulationData.are_compatible`: the source loops
over all declared storage attributes, skips those whose comparison
behaviour is `Ignore`, and compares the rest for equality.  (The
`type(stored_data_1) != type(stored_data_2)` guard of the source is
vacuous here since the embedding has a single concrete kind.) -/
def are_compatible (a b : StoredSimulationData) : Bool :=
  decide (a.substance = b.substance) &&
  decide (a.thermodynamic_state = b.thermodynamic_state) &&
  decide (a.property_phase = b.property_phase) &&
  decide (a.force_field_id = b.force_field_id) &&
  decide (a.total_number_of_molecules = b.total_number_of_molecules)

/-- Embedding of `StoredSimulationData.most_information`: raises a
`ValueError` (modelled as `Except.error`) for incompatible records, and
otherwise returns `stored_data_1` exactly when its statistical
inefficiency is strictly lower, and `stored_data_2` otherwise. -/
def most_information (a b : StoredSimulationData) :
    Except String StoredSimulationData :=
  if are_compatible a b = false then
    Except.error
      "The two pieces of data are incompatible and cannot be merged into one."
  else if a.statistical_inefficiency < b.statistical_inefficiency then
    Except.ok a
  else
    Except.ok b

/-- Modelled from the spec: the `CentralDifferenceGradient` protocol of
`evaluator/protocols/gradients.py` is not among the sources; only its
test `test_central_difference_gradient` is.  Per the specification,
the output is
`(forward_observable - reverse_observable) / (forward_parameter - reverse_parameter)`
and the protocol fails, before the division is computed, when the
forward and reverse parameter values are equal. -/
def centralDifferenceGradient
    (reverseParameter reverseObservable forwardParameter forwardObservable : ℚ) :
    Except String ℚ :=
  if forwardParameter = reverseParameter then
    Except.error "The forward and reverse parameter values are equal."
  else
    Except.ok ((forwardObservable - reverseObservable) /
      (forwardParameter - reverseParameter))

/-- Embedding of the degrees-of-freedom computation of
`RunOpenMMSimulation._simulate` (lines 522 to 528): three per particle
with nonzero mass, minus the number of constraints, minus three when a
centre-of-mass motion remover force is present. -/
def degreesOfFreedom (masses : List ℚ) (numConstraints : ℕ)
    (hasCMMotionRemover : Bool) : ℤ :=
  ((masses.filter (fun m => decide ((0 : ℚ) < m))).map (fun _ => (3 : ℤ))).sum
    - numConstraints - (if hasCMMotionRemover then 3 else 0)

/-- Columns of the statistics table produced by
`_write_statistics_array`, one rational per reporting interval;
the enthalpy column is optional. -/
structure StatisticsArrayModel where
  potentialEnergies : List ℚ
  kineticEnergies : List ℚ
  totalEnergies : List ℚ
  temperatures : List ℚ
  volumes : List ℚ
  densities : List ℚ
  reducedPotentials : List ℚ
  enthalpies : Option (List ℚ)

/-- Embedding of `RunOpenMMSimulation._write_statistics_array`.  The raw
arrays are sliced to `[0, currentStep]`; the derived columns follow the
formulas of the source: `temperatures = 2 K / (dof R)`,
`totalEnergies = P + K`, `reducedPotentials = beta (P / NA)` with the
`pressure * V` term added before scaling when a pressure is defined,
`enthalpies = totalEnergies + (pressure * V) * NA` only when a pressure
is defined, and `densities = totalMass / (V NA)`, where
`beta = 1 / (kB T)`.  The unit constants (Boltzmann constant `kB`, molar
gas constant `R`, Avogadro number `NA`) are parameters. -/
def writeStatisticsArray (kB R NA : ℚ) (rawP rawK rawV : List ℚ)
    (currentStep : ℕ) (T : ℚ) (pressure : Option ℚ) (dof : ℤ)
    (totalMass : ℚ) : StatisticsArrayModel :=
  let beta := 1 / (kB * T)
  let P := rawP.take (currentStep + 1)
  let K := rawK.take (currentStep + 1)
  let V := rawV.take (currentStep + 1)
  let temperatures := K.map (fun k => 2 * k / ((dof : ℚ) * R))
  let totalEnergies := List.zipWith (fun p k => p + k) P K
  let reducedPotentials :=
    match pressure with
    | none => P.map (fun p => beta * (p / NA))
    | some pr => List.zipWith (fun p v => beta * (p / NA + pr * v)) P V
  let enthalpies :=
    match pressure with
    | none => none
    | some pr => some (List.zipWith (fun te v => te + pr * v * NA) totalEnergies V)
  let densities := V.map (fun v => totalMass / (v * NA))
  ⟨P, K, totalEnergies, temperatures, V, densities, reducedPotentials, enthalpies⟩

/-- Thermodynamic ensemble, as in `propertyestimator/thermodynamics.py`:
fixed volume (`NVT`) or fixed pressure (`NPT`). -/
inductive Ensemble where
  | NVT
  | NPT
  deriving DecidableEq

/-- Observable effects of `RunOpenMMSimulation.execute` and `_simulate`
on the working directory, in program order.  `writeFrame` appends a
frame to the temporary trajectory, `writeTempStats` overwrites the
temporary statistics file with the given number of rows,
`replaceTrajectory` and `replaceStatistics` are the `os.replace` calls
promoting the temporary files to the final paths, and
`directWriteStatistics` is the `to_pandas_csv` call writing the
concatenated table straight to the final statistics path. -/
inductive Event where
  | stepIntegrator (n : ℕ)
  | writeFrame
  | writeTempStats (rows : ℕ)
  | writeCheckpoint
  | closeTrajectory
  | replaceTrajectory
  | replaceStatistics
  | directWriteStatistics (rows : ℕ)
  | writeInputPdb
  | writeOutputPdb
  deriving DecidableEq

/-- Model of the working directory: frame counts of the final and
temporary trajectory files, row counts of the final and temporary
statistics files (`none` meaning the file is absent), and the
checkpoint, which stores only the physical state of the context
(represented by the cumulative number of integration steps ever taken),
with no step-count cursor. -/
structure FS where
  finalTraj : Option ℕ
  finalStats : Option ℕ
  tempTraj : Option ℕ
  tempStats : Option ℕ
  checkpoint : Option ℕ
  deriving DecidableEq

/-- Configuration of a `RunOpenMMSimulation` invocation.  `failAt`
injects an exception inside the stepping loop at the given reporting
index (during state extraction, after the integrator advanced and
before the frame write), modelling a mid-run failure; `traceback` is the
formatted traceback text the handler would capture. -/
structure Config where
  steps : ℕ
  outputFrequency : ℕ
  saveRolling : Bool
  ensemble : Ensemble
  thermoState : ThermoState
  enablePBC : Bool
  hasBoxVectors : Bool
  failAt : Option ℕ
  traceback : String
  deriving DecidableEq

/-- Result of the stepping loop: the events it emitted, the number of
fully completed reporting intervals (the final `current_step`), the
number of integration steps taken, and whether an exception aborted
it. -/
structure LoopOut where
  trace : List Event
  intervals : ℕ
  stepsTaken : ℕ
  failed : Bool
  deriving DecidableEq

/-- Embedding of the `while current_step_count < self.steps` loop of
`_simulate` (lines 545 to 575).  Each iteration advances the integrator
by `min(output_frequency, steps - current_step_count)`, writes one
trajectory frame, and, when rolling statistics are enabled, overwrites
the temporary statistics file with the rows up to the current index.
The loop starts from `current_step_count = 0` on every invocation; the
checkpoint is never consulted for a cursor.  `fuel` bounds the
recursion; `steps` units suffice whenever the output frequency is
positive. -/
def loop (cfg : Config) : ℕ → ℕ → ℕ → LoopOut
  | 0, _, _ => ⟨[], 0, 0, false⟩
  | fuel + 1, count, idx =>
    if count < cfg.steps then
      let t := min cfg.outputFrequency (cfg.steps - count)
      if cfg.failAt = some idx then
        ⟨[Event.stepIntegrator t], 0, t, true⟩
      else
        let rest := loop cfg fuel (count + t) (idx + 1)
        ⟨Event.stepIntegrator t :: Event.writeFrame ::
            ((if cfg.saveRolling then [Event.writeTempStats (idx + 1)] else [])
              ++ rest.trace),
          rest.intervals + 1, t + rest.stepsTaken, rest.failed⟩
    else ⟨[], 0, 0, false⟩

/-- Outcome of an invocation: a normal return of the output dictionary,
a returned `PropertyEstimatorException` carrying the working directory
and a message, or an uncaught Python exception escaping `execute`. -/
inductive Outcome where
  | success
  | structuredFailure (directory : String) (message : String)
  | uncaughtValueError
  deriving DecidableEq

/-- One invocation's observable result: the outcome, the resulting
working-directory state and the event trace. -/
structure SimOut where
  outcome : Outcome
  fs : FS
  trace : List Event

/-- The pre-sized statistics buffer length
`math.ceil(steps / output_frequency)` of `_simulate` (line 509). -/
def expectedStats (cfg : Config) : ℕ :=
  (cfg.steps + cfg.outputFrequency - 1) / cfg.outputFrequency

/-- Embedding of `RunOpenMMSimulation._simulate` (lines 460 to 635).
It writes `input.pdb`, copies an existing final trajectory into the
temporary path to append to it (otherwise starts it empty), runs the
stepping loop, and then unconditionally writes the checkpoint, closes
the trajectory stream and writes the statistics buffer (clipped to the
buffer size) to the temporary statistics path.  On failure it returns
the structured failure value; on success it promotes the temporary
trajectory with `os.replace`, promotes the temporary statistics with
`os.replace` when no final statistics file exists and otherwise writes
the concatenation of the existing and new tables directly to the final
statistics path, and finally writes `output.pdb`. -/
def simulate (dir : String) (cfg : Config) (fs : FS) (physPos : ℕ) : SimOut :=
  let tempTraj0 := fs.finalTraj.getD 0
  let lout := loop cfg cfg.steps 0 0
  let finalRows := min (lout.intervals + 1) (expectedStats cfg)
  let newTempTraj := tempTraj0 + lout.intervals
  let preTrace := Event.writeInputPdb :: lout.trace
  let epilogue := [Event.writeCheckpoint, Event.closeTrajectory,
    Event.writeTempStats finalRows]
  let fs1 : FS :=
    { fs with
      tempTraj := some newTempTraj,
      tempStats := some finalRows,
      checkpoint := some (physPos + lout.stepsTaken) }
  if lout.failed then
    ⟨Outcome.structuredFailure dir
        ("The simulation failed unexpectedly: " ++ cfg.traceback),
      fs1, preTrace ++ epilogue⟩
  else
    match fs.finalStats with
    | none =>
      ⟨Outcome.success,
        { fs1 with
          finalTraj := some newTempTraj,
          tempTraj := none,
          finalStats := some finalRows,
          tempStats := none },
        preTrace ++ epilogue ++
          [Event.replaceTrajectory, Event.replaceStatistics,
            Event.writeOutputPdb]⟩
    | some oldRows =>
      ⟨Outcome.success,
        { fs1 with
          finalTraj := some newTempTraj,
          tempTraj := none,
          finalStats := some (oldRows + finalRows) },
        preTrace ++ epilogue ++
          [Event.replaceTrajectory,
            Event.directWriteStatistics (oldRows + finalRows),
            Event.writeOutputPdb]⟩

/-- Embedding of `RunOpenMMSimulation.execute` (lines 235 to 282):
validation of temperature, pressure and periodic boundaries before any
file is touched; deletion of leftover temporary files; then simulation
setup, which loads the physical state from the checkpoint when one is
present and otherwise cold-starts, raising an uncaught `ValueError`
when periodic boundaries are enabled but the input coordinates carry no
box vectors; and finally `_simulate`. -/
def execute (dir : String) (cfg : Config) (fs : FS) : SimOut :=
  let temperature := cfg.thermoState.temperature
  let pressure :=
    if cfg.ensemble = Ensemble.NVT then none else cfg.thermoState.pressure
  if temperature = none then
    ⟨Outcome.structuredFailure dir
        "A temperature must be set to perform a simulation in any ensemble",
      fs, []⟩
  else if cfg.ensemble = Ensemble.NPT ∧ pressure = none then
    ⟨Outcome.structuredFailure dir
        "A pressure must be set to perform an NPT simulation", fs, []⟩
  else if cfg.ensemble = Ensemble.NPT ∧ cfg.enablePBC = false then
    ⟨Outcome.structuredFailure dir
        "PBC must be enabled when running in the NPT ensemble.", fs, []⟩
  else
    let fs1 : FS := { fs with tempTraj := none, tempStats := none }
    match fs.checkpoint with
    | some p => simulate dir cfg fs1 p
    | none =>
      if cfg.enablePBC = true ∧ cfg.hasBoxVectors = false then
        ⟨Outcome.uncaughtValueError, fs1, []⟩
      else simulate dir cfg fs1 0

/-- An NPT configuration of four steps with a reporting interval of one
step, used as a concrete run. -/
def npt41 : Config :=
  ⟨4, 1, true, Ensemble.NPT, ⟨some 298, some 1⟩, true, true, none, ""⟩

/-- An NVT configuration of two steps with a reporting interval of one
step, used as a concrete run. -/
def nvt21 : Config :=
  ⟨2, 1, true, Ensemble.NVT, ⟨some 298, none⟩, true, true, none, ""⟩

/-- A fresh working directory with no files. -/
def emptyFS : FS := ⟨none, none, none, none, none⟩

/-- Test for a checkpoint-write event. -/
def isCheckpointEvent : Event → Bool
  | Event.writeCheckpoint => true
  | _ => false

/-- Test for a trajectory-frame write event. -/
def isFrameEvent : Event → Bool
  | Event.writeFrame => true
  | _ => false

/-- Test for a temporary-statistics write event. -/
def isTempStatsEvent : Event → Bool
  | Event.writeTempStats _ => true
  | _ => false

/-- Test for an event that writes or renames onto a final output path. -/
def touchesFinalPath : Event → Bool
  | Event.replaceTrajectory => true
  | Event.replaceStatistics => true
  | Event.directWriteStatistics _ => true
  | _ => false

/-- Test for an event the stepping loop may emit: an integrator advance,
a frame write into the temporary trajectory, or a rolling write of the
temporary statistics file. -/
def isLoopEvent : Event → Bool
  | Event.stepIntegrator _ => true
  | Event.writeFrame => true
  | Event.writeTempStats _ => true
  | _ => false

/-- A three-interval configuration whose stepping loop raises at
reporting index one, used as a concrete failing run. -/
def failCfg : Config :=
  ⟨3, 1, true, Ensemble.NVT, ⟨some 298, none⟩, true, true, some 1, "boom"⟩


/-- Every event emitted by the stepping loop is an integrator advance, a
temporary-trajectory frame write or a temporary-statistics write. -/
lemma loop_trace_events (cfg : Config) :
    ∀ fuel count idx, ∀ e ∈ (loop cfg fuel count idx).trace,
      isLoopEvent e = true := by
  intro fuel
  induction fuel with
  | zero =>
    intro count idx e he
    simp [loop] at he
  | succ n ih =>
    intro count idx e he
    by_cases h1 : count < cfg.steps
    · by_cases h2 : cfg.failAt = some idx
      · simp only [loop, if_pos h1, if_pos h2, List.mem_singleton] at he
        subst he
        rfl
      · cases hr : cfg.saveRolling
        · simp only [loop, if_pos h1, if_neg h2, hr, Bool.false_eq_true,
            if_false, List.nil_append, List.mem_cons] at he
          rcases he with rfl | rfl | he
          · rfl
          · rfl
          · exact ih _ _ e he
        · simp only [loop, if_pos h1, if_neg h2, hr, if_true,
            List.singleton_append, List.mem_cons] at he
          rcases he with rfl | rfl | rfl | he
          · rfl
          · rfl
          · rfl
          · exact ih _ _ e he
    · simp only [loop, if_neg h1, List.not_mem_nil] at he

/-- The checkpoint write never happens inside the stepping loop. -/
lemma checkpoint_not_in_loop (cfg : Config) (fuel count idx : ℕ) :
    Event.writeCheckpoint ∉ (loop cfg fuel count idx).trace := by
  intro h
  have := loop_trace_events cfg fuel count idx _ h
  simp [isLoopEvent] at this

/-- Loop events never write or rename onto a final output path. -/
lemma loopEvent_not_final (e : Event) (h : isLoopEvent e = true) :
    touchesFinalPath e = false := by
  cases e <;> simp [isLoopEvent, touchesFinalPath] at h ⊢

/-- The loop writes exactly one trajectory frame per completed
reporting interval. -/
lemma loop_count_frames (cfg : Config) :
    ∀ fuel count idx,
      (loop cfg fuel count idx).trace.countP isFrameEvent =
        (loop cfg fuel count idx).intervals := by
  intro fuel
  induction fuel with
  | zero =>
    intro count idx
    simp [loop]
  | succ n ih =>
    intro count idx
    by_cases h1 : count < cfg.steps
    · by_cases h2 : cfg.failAt = some idx
      · simp [loop, if_pos h1, if_pos h2, isFrameEvent]
      · cases hr : cfg.saveRolling <;>
          simp [loop, if_pos h1, if_neg h2, hr, List.countP_cons,
            List.countP_append, isFrameEvent, ih]
    · simp [loop, if_neg h1]

/-- With rolling statistics enabled, the loop writes the temporary
statistics file exactly once per completed reporting interval. -/
lemma loop_count_stats (cfg : Config) (hr : cfg.saveRolling = true) :
    ∀ fuel count idx,
      (loop cfg fuel count idx).trace.countP isTempStatsEvent =
        (loop cfg fuel count idx).intervals := by
  intro fuel
  induction fuel with
  | zero =>
    intro count idx
    simp [loop]
  | succ n ih =>
    intro count idx
    by_cases h1 : count < cfg.steps
    · by_cases h2 : cfg.failAt = some idx
      · simp [loop, if_pos h1, if_pos h2, isTempStatsEvent]
      · simp [loop, if_pos h1, if_neg h2, hr, List.countP_cons,
          List.countP_append, isTempStatsEvent, isFrameEvent, ih]
    · simp [loop, if_neg h1]

/-- When the configuration injects an exception at reporting index `k`
and the loop (with positive output frequency and enough fuel) can reach
that index before exhausting the target step count, the loop aborts in
the failed state after exactly `k - idx` further completed intervals. -/
lemma loop_fail (cfg : Config) (k : ℕ)
    (hfail : cfg.failAt = some k) :
    ∀ fuel count idx, idx ≤ k → k - idx < fuel →
      count + (k - idx) * cfg.outputFrequency < cfg.steps →
      (loop cfg fuel count idx).failed = true ∧
      (loop cfg fuel count idx).intervals = k - idx := by
  intro fuel
  induction fuel with
  | zero =>
    intro count idx h1 h2 h3
    omega
  | succ n ih =>
    intro count idx h1 h2 h3
    have hcount : count < cfg.steps := by
      have h4 := Nat.le_add_right count ((k - idx) * cfg.outputFrequency)
      omega
    by_cases hik : idx = k
    · subst hik
      simp [loop, if_pos hcount, hfail]
    · have hlt : idx < k := lt_of_le_of_ne h1 hik
      have hne : ¬(cfg.failAt = some idx) := by
        rw [hfail]
        simp
        omega
      have hsm : (k - idx) * cfg.outputFrequency =
          (k - (idx + 1)) * cfg.outputFrequency + cfg.outputFrequency := by
        have h9 : k - idx = (k - (idx + 1)) + 1 := by omega
        rw [h9, Nat.succ_mul]
      have ht : min cfg.outputFrequency (cfg.steps - count) =
          cfg.outputFrequency := by
        omega
      have hrec := ih (count + cfg.outputFrequency) (idx + 1)
        (by omega) (by omega) (by omega)
      simp only [loop, if_pos hcount, if_neg hne, ht]
      refine ⟨hrec.1, ?_⟩
      simp only [hrec.2]
      omega

/-- Unfolding of `simulate` when the stepping loop aborts with an
exception: the structured failure is returned, the checkpoint is still
written (after the loop output, before closing the stream and the final
temporary-statistics write), and the final output paths are untouched. -/
lemma simulate_failed (dir : String) (cfg : Config) (fs : FS) (physPos : ℕ)
    (hf : (loop cfg cfg.steps 0 0).failed = true) :
    simulate dir cfg fs physPos =
      ⟨Outcome.structuredFailure dir
          ("The simulation failed unexpectedly: " ++ cfg.traceback),
        { fs with
          tempTraj :=
            some (fs.finalTraj.getD 0 + (loop cfg cfg.steps 0 0).intervals),
          tempStats :=
            some (min ((loop cfg cfg.steps 0 0).intervals + 1)
              (expectedStats cfg)),
          checkpoint := some (physPos + (loop cfg cfg.steps 0 0).stepsTaken) },
        Event.writeInputPdb :: (loop cfg cfg.steps 0 0).trace ++
          [Event.writeCheckpoint, Event.closeTrajectory,
            Event.writeTempStats
              (min ((loop cfg cfg.steps 0 0).intervals + 1)
                (expectedStats cfg))]⟩ := by
  simp [simulate, hf]

/-- Unfolding of `simulate` on success when no final statistics file
exists: both temporary files are promoted to the final paths by
renames. -/
lemma simulate_success_first (dir : String) (cfg : Config) (fs : FS)
    (physPos : ℕ) (hf : (loop cfg cfg.steps 0 0).failed = false)
    (hs : fs.finalStats = none) :
    simulate dir cfg fs physPos =
      ⟨Outcome.success,
        { fs with
          finalTraj :=
            some (fs.finalTraj.getD 0 + (loop cfg cfg.steps 0 0).intervals),
          finalStats :=
            some (min ((loop cfg cfg.steps 0 0).intervals + 1)
              (expectedStats cfg)),
          tempTraj := none,
          tempStats := none,
          checkpoint := some (physPos + (loop cfg cfg.steps 0 0).stepsTaken) },
        Event.writeInputPdb :: (loop cfg cfg.steps 0 0).trace ++
          [Event.writeCheckpoint, Event.closeTrajectory,
            Event.writeTempStats
              (min ((loop cfg cfg.steps 0 0).intervals + 1)
                (expectedStats cfg)),
            Event.replaceTrajectory, Event.replaceStatistics,
            Event.writeOutputPdb]⟩ := by
  simp [simulate, hf, hs]

/-- Unfolding of `simulate` on success when a final statistics file
already exists: the trajectory is promoted by a rename, but the
concatenated statistics table is written directly onto the final
statistics path. -/
lemma simulate_success_append (dir : String) (cfg : Config) (fs : FS)
    (physPos oldRows : ℕ) (hf : (loop cfg cfg.steps 0 0).failed = false)
    (hs : fs.finalStats = some oldRows) :
    simulate dir cfg fs physPos =
      ⟨Outcome.success,
        { fs with
          finalTraj :=
            some (fs.finalTraj.getD 0 + (loop cfg cfg.steps 0 0).intervals),
          finalStats :=
            some (oldRows + min ((loop cfg cfg.steps 0 0).intervals + 1)
              (expectedStats cfg)),
          tempTraj := none,
          tempStats :=
            some (min ((loop cfg cfg.steps 0 0).intervals + 1)
              (expectedStats cfg)),
          checkpoint := some (physPos + (loop cfg cfg.steps 0 0).stepsTaken) },
        Event.writeInputPdb :: (loop cfg cfg.steps 0 0).trace ++
          [Event.writeCheckpoint, Event.closeTrajectory,
            Event.writeTempStats
              (min ((loop cfg cfg.steps 0 0).intervals + 1)
                (expectedStats cfg)),
            Event.replaceTrajectory,
            Event.directWriteStatistics
              (oldRows + min ((loop cfg cfg.steps 0 0).intervals + 1)
                (expectedStats cfg)),
            Event.writeOutputPdb]⟩ := by
  simp [simulate, hf, hs]

/-- C8: `are_compatible a b` holds exactly when every non-ignored field
(substance, thermodynamic state, phase, force field id, molecule count)
is equal in the two records; in particular `are_compatible a a` always
holds.  The ignored fields (provenance, source calculation id, the three
file-name references and the statistical inefficiency) play no role. -/
theorem C8_are_compatible_iff (a b : StoredSimulationData) :
    (are_compatible a b = true ↔
      (a.substance = b.substance ∧
       a.thermodynamic_state = b.thermodynamic_state ∧
       a.property_phase = b.property_phase ∧
       a.force_field_id = b.force_field_id ∧
       a.total_number_of_molecules = b.total_number_of_molecules)) ∧
    are_compatible a a = true := by
  constructor
  · simp [are_compatible, and_assoc]
  · simp [are_compatible]

/-- C3, counterexample: two compatible records with equal statistical
inefficiency but different (ignored) statistics file names.  The claim
says `most_information` returns the first argument on a tie; the code
returns the second. -/
theorem C3_tie_returns_second_cx :
    most_information
      ⟨"O", ⟨some 298, some 1⟩, "Liquid", "id-a", [], "ff", "a.pdb",
        "a.dcd", "a.csv", 2, 100⟩
      ⟨"O", ⟨some 298, some 1⟩, "Liquid", "id-b", [], "ff", "b.pdb",
        "b.dcd", "b.csv", 2, 100⟩ =
    Except.ok
      ⟨"O", ⟨some 298, some 1⟩, "Liquid", "id-b", [], "ff", "b.pdb",
        "b.dcd", "b.csv", 2, 100⟩ ∧
    most_information
      ⟨"O", ⟨some 298, some 1⟩, "Liquid", "id-a", [], "ff", "a.pdb",
        "a.dcd", "a.csv", 2, 100⟩
      ⟨"O", ⟨some 298, some 1⟩, "Liquid", "id-b", [], "ff", "b.pdb",
        "b.dcd", "b.csv", 2, 100⟩ ≠
    Except.ok
      ⟨"O", ⟨some 298, some 1⟩, "Liquid", "id-a", [], "ff", "a.pdb",
        "a.dcd", "a.csv", 2, 100⟩ := by
  constructor
  · rfl
  · intro h
    exact absurd (Except.ok.inj h) (by decide)

/-- C3, amended: `most_information a b` fails with an error (a
`ValueError` in the code) when `are_compatible a b` is false; otherwise
it returns whichever record has the strictly lower statistical
inefficiency, and when the two inefficiencies are equal it returns the
second argument `b`. -/
theorem C3_most_information_spec (a b : StoredSimulationData) :
    (are_compatible a b = false →
      most_information a b =
        Except.error
          "The two pieces of data are incompatible and cannot be merged into one.") ∧
    (are_compatible a b = true →
      a.statistical_inefficiency < b.statistical_inefficiency →
      most_information a b = Except.ok a) ∧
    (are_compatible a b = true →
      b.statistical_inefficiency < a.statistical_inefficiency →
      most_information a b = Except.ok b) ∧
    (are_compatible a b = true →
      a.statistical_inefficiency = b.statistical_inefficiency →
      most_information a b = Except.ok b) := by
  refine ⟨?_, ?_, ?_, ?_⟩
  · intro h
    simp [most_information, h]
  · intro h hlt
    simp [most_information, h, hlt]
  · intro h hlt
    simp [most_information, h, not_lt_of_gt hlt]
  · intro h heq
    simp [most_information, h, heq]

/-- Witness for C3: evaluating the amended theorem on concrete
compatible records with a strictly lower first inefficiency. -/
theorem C3_most_information_spec_witness :
    most_information
      ⟨"O", ⟨some 298, some 1⟩, "Liquid", "id-a", [], "ff", "a.pdb",
        "a.dcd", "a.csv", 1, 100⟩
      ⟨"O", ⟨some 298, some 1⟩, "Liquid", "id-b", [], "ff", "b.pdb",
        "b.dcd", "b.csv", 2, 100⟩ =
    Except.ok
      ⟨"O", ⟨some 298, some 1⟩, "Liquid", "id-a", [], "ff", "a.pdb",
        "a.dcd", "a.csv", 1, 100⟩ :=
  (C3_most_information_spec _ _).2.1 (by decide) (by norm_num)

/-- C9: the finite-difference gradient protocol returns
`(forward_observable - reverse_observable) / (forward_parameter - reverse_parameter)`
whenever the two parameter values differ, fails with a validation error
when they are equal, and on the concrete scenario of the specification
(reverse parameter `-2`, reverse observable `-4`, forward parameter `3`,
forward observable `9`) yields `13/5`. -/
theorem C9_central_difference_gradient
    (rp ro fp fo : ℚ) :
    (fp ≠ rp →
      centralDifferenceGradient rp ro fp fo =
        Except.ok ((fo - ro) / (fp - rp))) ∧
    (fp = rp →
      centralDifferenceGradient rp ro fp fo =
        Except.error "The forward and reverse parameter values are equal.") ∧
    centralDifferenceGradient (-2) (-4) 3 9 = Except.ok (13 / 5) := by
  refine ⟨?_, ?_, ?_⟩
  · intro h
    simp [centralDifferenceGradient, h]
  · intro h
    simp [centralDifferenceGradient, h]
  · rw [show ((13 : ℚ) / 5) = ((9 - (-4)) / (3 - (-2))) by norm_num]
    simp [centralDifferenceGradient]
    norm_num

/-- Witness for C9: the gradient of the concrete specification scenario,
obtained by applying the theorem with its inequality hypothesis
discharged. -/
theorem C9_central_difference_gradient_witness :
    centralDifferenceGradient (-2) (-4) 3 9 =
      Except.ok ((9 - (-4)) / (3 - (-2))) :=
  (C9_central_difference_gradient (-2) (-4) 3 9).1 (by norm_num)


/-- C4: every row of the derived statistics satisfies the formulas of
the claim: instantaneous temperature `2 K / (dof R)`, total energy
`P + K`, reduced potential `beta (P / NA + pressure V)` (the pressure
term only when a pressure is defined), density `totalMass / (V NA)`,
enthalpy `P + K + pressure V NA` present exactly when a pressure is
defined; and the degrees of freedom equal three times the number of
particles of nonzero mass minus the constraint count minus three when a
centre-of-mass motion remover is active. -/
theorem C4_derived_observables
    (kB R NA : ℚ) (rawP rawK rawV : List ℚ) (currentStep : ℕ)
    (T : ℚ) (pressure : Option ℚ) (dof : ℤ) (totalMass : ℚ)
    (masses : List ℚ) (numConstraints : ℕ) (hasCMM : Bool)
    (i : ℕ) (hi : i ≤ currentStep)
    (hP : i < rawP.length) (hK : i < rawK.length) (hV : i < rawV.length) :
    (writeStatisticsArray kB R NA rawP rawK rawV currentStep T pressure dof
        totalMass).temperatures[i]? = some (2 * rawK[i] / ((dof : ℚ) * R)) ∧
    (writeStatisticsArray kB R NA rawP rawK rawV currentStep T pressure dof
        totalMass).totalEnergies[i]? = some (rawP[i] + rawK[i]) ∧
    (pressure = none →
      (writeStatisticsArray kB R NA rawP rawK rawV currentStep T pressure dof
        totalMass).reducedPotentials[i]? =
          some (1 / (kB * T) * (rawP[i] / NA))) ∧
    (∀ pr, pressure = some pr →
      (writeStatisticsArray kB R NA rawP rawK rawV currentStep T pressure dof
        totalMass).reducedPotentials[i]? =
          some (1 / (kB * T) * (rawP[i] / NA + pr * rawV[i]))) ∧
    (writeStatisticsArray kB R NA rawP rawK rawV currentStep T pressure dof
        totalMass).densities[i]? = some (totalMass / (rawV[i] * NA)) ∧
    (∀ pr es, pressure = some pr →
      (writeStatisticsArray kB R NA rawP rawK rawV currentStep T pressure dof
        totalMass).enthalpies = some es →
      es[i]? = some (rawP[i] + rawK[i] + pr * rawV[i] * NA)) ∧
    ((writeStatisticsArray kB R NA rawP rawK rawV currentStep T pressure dof
        totalMass).enthalpies.isSome ↔ pressure.isSome) ∧
    degreesOfFreedom masses numConstraints hasCMM =
      3 * ((masses.filter (fun m => decide ((0 : ℚ) < m))).length : ℤ)
        - numConstraints - (if hasCMM then 3 else 0) := by
  have hi' : i < currentStep + 1 := Nat.lt_succ_of_le hi
  refine ⟨?_, ?_, ?_, ?_, ?_, ?_, ?_, ?_⟩
  · simp [writeStatisticsArray, List.getElem?_map, List.getElem?_take, hi',
      List.getElem?_eq_getElem, hK]
  · simp [writeStatisticsArray, List.getElem?_zipWith, List.getElem?_take, hi',
      List.getElem?_eq_getElem, hP, hK]
  · intro h
    subst h
    simp [writeStatisticsArray, List.getElem?_map, List.getElem?_take, hi',
      List.getElem?_eq_getElem, hP]
  · intro pr h
    subst h
    simp [writeStatisticsArray, List.getElem?_zipWith, List.getElem?_take, hi',
      List.getElem?_eq_getElem, hP, hV]
  · simp [writeStatisticsArray, List.getElem?_map, List.getElem?_take, hi',
      List.getElem?_eq_getElem, hV]
  · intro pr es h hes
    subst h
    simp only [writeStatisticsArray, Option.some.injEq] at hes
    subst hes
    simp [List.getElem?_zipWith, List.getElem?_take, hi',
      List.getElem?_eq_getElem, hP, hK, hV]
  · cases pressure <;> simp [writeStatisticsArray]
  · simp [degreesOfFreedom, List.map_const', List.sum_replicate, nsmul_eq_mul,
      mul_comm]

/-- Witness for C4, on the concrete scenario of the specification:
potential energy 100, kinetic energy 50, volume 1000, six degrees of
freedom, no pressure (with unit constants instantiated as kB = 1, R = 2,
NA = 3 and total mass 18). -/
theorem C4_derived_observables_witness :
    (writeStatisticsArray 1 2 3 [100] [50] [1000] 0 5 none 6
        18).temperatures[0]? = some (2 * 50 / (((6 : ℤ) : ℚ) * 2)) ∧
    (writeStatisticsArray 1 2 3 [100] [50] [1000] 0 5 none 6
        18).totalEnergies[0]? = some (100 + 50) ∧
    ((writeStatisticsArray 1 2 3 [100] [50] [1000] 0 5 none 6
        18).enthalpies.isSome ↔ (none : Option ℚ).isSome) :=
  ⟨(C4_derived_observables 1 2 3 [100] [50] [1000] 0 5 none 6 18 [1, 1] 0
      false 0 (le_refl 0) (by decide) (by decide) (by decide)).1,
   (C4_derived_observables 1 2 3 [100] [50] [1000] 0 5 none 6 18 [1, 1] 0
      false 0 (le_refl 0) (by decide) (by decide) (by decide)).2.1,
   (C4_derived_observables 1 2 3 [100] [50] [1000] 0 5 none 6 18 [1, 1] 0
      false 0 (le_refl 0) (by decide) (by decide) (by decide)).2.2.2.2.2.2.1⟩


/-- C1: a first invocation of `execute` on a fresh directory with four
steps and interval one completes with four statistics rows and four
trajectory frames, but a second invocation with the identical
configuration doubles both to eight: the checkpoint stores only the
physical state, `_simulate` restarts `current_step_count` at zero, and
the run appends a full second set of frames and rows, contradicting the
claimed no-op idempotence. -/
theorem C1_second_invocation_doubles_output :
    ((execute "run-dir" npt41 emptyFS).fs.finalStats = some 4 ∧
     (execute "run-dir" npt41 emptyFS).fs.finalTraj = some 4) ∧
    ((execute "run-dir" npt41
        (execute "run-dir" npt41 emptyFS).fs).fs.finalStats = some 8 ∧
     (execute "run-dir" npt41
        (execute "run-dir" npt41 emptyFS).fs).fs.finalTraj = some 8) := by
  decide

/-- C2, counterexample: in a completed two-interval run the trace holds
two trajectory-frame writes but only a single checkpoint write, so no
checkpoint is persisted after each completed reporting interval (that
would require at least as many checkpoint writes as intervals). -/
theorem C2_checkpoint_not_per_interval_cx :
    (execute "run-dir" nvt21 emptyFS).trace.countP isFrameEvent = 2 ∧
    (execute "run-dir" nvt21 emptyFS).trace.countP isCheckpointEvent = 1 ∧
    ¬((execute "run-dir" nvt21 emptyFS).trace.countP isFrameEvent ≤
      (execute "run-dir" nvt21 emptyFS).trace.countP isCheckpointEvent) := by
  decide

/-- C5, counterexample: re-invoking `execute` after a completed run
finds an existing final statistics file, and the concatenated table is
then written directly to the final statistics path (a
`directWriteStatistics` event) with no rename (`replaceStatistics`)
occurring, contradicting the claim that final paths are only ever
produced by an atomic promotion. -/
theorem C5_direct_final_statistics_write_cx :
    Event.directWriteStatistics 8 ∈
      (execute "run-dir" npt41 (execute "run-dir" npt41 emptyFS).fs).trace ∧
    (execute "run-dir" npt41
        (execute "run-dir" npt41 emptyFS).fs).trace.countP
      (fun e => decide (e = Event.replaceStatistics)) = 0 := by
  decide

/-- C7: when the thermodynamic state has no temperature, or the
ensemble is NPT with no pressure, or the ensemble is NPT with periodic
boundaries disabled, `execute` returns a structured configuration
failure carrying the working directory, with an empty event trace (no
integration steps) and the working directory left untouched. -/
theorem C7_validation_failures (dir : String) (cfg : Config) (fs : FS)
    (h : cfg.thermoState.temperature = none ∨
         (cfg.ensemble = Ensemble.NPT ∧ cfg.thermoState.pressure = none) ∨
         (cfg.ensemble = Ensemble.NPT ∧ cfg.enablePBC = false)) :
    ∃ msg, execute dir cfg fs =
      ⟨Outcome.structuredFailure dir msg, fs, []⟩ := by
  by_cases ht : cfg.thermoState.temperature = none
  · exact ⟨"A temperature must be set to perform a simulation in any ensemble",
      by simp [execute, ht]⟩
  · rcases h with h | ⟨he, hp⟩ | ⟨he, hb⟩
    · exact absurd h ht
    · exact ⟨"A pressure must be set to perform an NPT simulation",
        by simp [execute, ht, he, hp]⟩
    · by_cases hp : cfg.thermoState.pressure = none
      · exact ⟨"A pressure must be set to perform an NPT simulation",
          by simp [execute, ht, he, hp]⟩
      · exact ⟨"PBC must be enabled when running in the NPT ensemble.",
          by simp [execute, ht, he, hp, hb]⟩

/-- Witness for C7: an NPT configuration with periodic boundaries
disabled fails immediately with an untouched directory and no steps. -/
theorem C7_validation_failures_witness :
    ∃ msg, execute "run-dir"
        ⟨100, 10, true, Ensemble.NPT, ⟨some 298, some 1⟩, false, true,
          none, ""⟩ emptyFS =
      ⟨Outcome.structuredFailure "run-dir" msg, emptyFS, []⟩ :=
  C7_validation_failures "run-dir" _ emptyFS (Or.inr (Or.inr ⟨rfl, rfl⟩))

/-- C10: on a cold start (no checkpoint) with periodic boundaries
enabled and an input coordinate file without box vectors, and a
configuration passing validation, `execute` ends in an uncaught
`ValueError` rather than a structured failure, with an empty trace (no
trajectory frames and no statistics rows written) and the final output
files untouched. -/
theorem C10_missing_box_vectors_raises (dir : String) (cfg : Config) (fs : FS)
    (h1 : fs.checkpoint = none) (h2 : cfg.enablePBC = true)
    (h3 : cfg.hasBoxVectors = false)
    (h4 : cfg.thermoState.temperature ≠ none)
    (h5 : cfg.ensemble = Ensemble.NPT → cfg.thermoState.pressure ≠ none) :
    execute dir cfg fs =
      ⟨Outcome.uncaughtValueError,
        { fs with tempTraj := none, tempStats := none }, []⟩ := by
  cases he : cfg.ensemble
  · simp [execute, h1, h2, h3, h4, he]
  · have hp := h5 he
    simp [execute, h1, h2, h3, h4, he, hp]

/-- Witness for C10: a concrete NPT configuration with no box vectors
on a fresh directory raises the uncaught error with nothing written. -/
theorem C10_missing_box_vectors_raises_witness :
    execute "run-dir"
        ⟨100, 10, true, Ensemble.NPT, ⟨some 298, some 1⟩, true, false,
          none, ""⟩ emptyFS =
      ⟨Outcome.uncaughtValueError,
        { emptyFS with tempTraj := none, tempStats := none }, []⟩ :=
  C10_missing_box_vectors_raises "run-dir" _ emptyFS rfl rfl rfl
    (by decide) (fun _ => by decide)


/-- C2, amended: `_simulate` writes exactly one checkpoint per
invocation, after the stepping loop terminates; every trajectory-frame
write precedes it, and with rolling statistics enabled the temporary
statistics file has been written once per completed interval before the
checkpoint (the code performs one further statistics write after the
checkpoint, before promoting any output). -/
theorem C2_single_checkpoint_after_outputs (dir : String) (cfg : Config)
    (fs : FS) (physPos : ℕ) :
    ∃ t₁ t₂,
      (simulate dir cfg fs physPos).trace =
        t₁ ++ Event.writeCheckpoint :: t₂ ∧
      Event.writeCheckpoint ∉ t₁ ∧
      Event.writeCheckpoint ∉ t₂ ∧
      Event.writeFrame ∉ t₂ ∧
      (cfg.saveRolling = true →
        t₁.countP isTempStatsEvent = t₁.countP isFrameEvent) := by
  have hmem : Event.writeCheckpoint ∉
      Event.writeInputPdb :: (loop cfg cfg.steps 0 0).trace := by
    simp only [List.mem_cons]
    rintro (h | h)
    · exact absurd h (by decide)
    · exact checkpoint_not_in_loop cfg _ _ _ h
  have hcnt : cfg.saveRolling = true →
      (Event.writeInputPdb ::
        (loop cfg cfg.steps 0 0).trace).countP isTempStatsEvent =
      (Event.writeInputPdb ::
        (loop cfg cfg.steps 0 0).trace).countP isFrameEvent := by
    intro hr
    simp [List.countP_cons, isTempStatsEvent, isFrameEvent,
      loop_count_stats cfg hr, loop_count_frames cfg]
  cases hf : (loop cfg cfg.steps 0 0).failed
  · cases hs : fs.finalStats with
    | none =>
      rw [simulate_success_first dir cfg fs physPos hf hs]
      refine ⟨Event.writeInputPdb :: (loop cfg cfg.steps 0 0).trace,
        [Event.closeTrajectory,
          Event.writeTempStats
            (min ((loop cfg cfg.steps 0 0).intervals + 1)
              (expectedStats cfg)),
          Event.replaceTrajectory, Event.replaceStatistics,
          Event.writeOutputPdb], by simp, hmem, by simp, by simp, hcnt⟩
    | some old =>
      rw [simulate_success_append dir cfg fs physPos old hf hs]
      refine ⟨Event.writeInputPdb :: (loop cfg cfg.steps 0 0).trace,
        [Event.closeTrajectory,
          Event.writeTempStats
            (min ((loop cfg cfg.steps 0 0).intervals + 1)
              (expectedStats cfg)),
          Event.replaceTrajectory,
          Event.directWriteStatistics
            (old + min ((loop cfg cfg.steps 0 0).intervals + 1)
              (expectedStats cfg)),
          Event.writeOutputPdb], by simp, hmem, by simp, by simp, hcnt⟩
  · rw [simulate_failed dir cfg fs physPos hf]
    refine ⟨Event.writeInputPdb :: (loop cfg cfg.steps 0 0).trace,
      [Event.closeTrajectory,
        Event.writeTempStats
          (min ((loop cfg cfg.steps 0 0).intervals + 1)
            (expectedStats cfg))], by simp, hmem, by simp, by simp, hcnt⟩

/-- Witness for C2: the amended single-checkpoint property evaluated on
the concrete two-interval NVT run. -/
theorem C2_single_checkpoint_after_outputs_witness :
    ∃ t₁ t₂,
      (simulate "run-dir" nvt21 emptyFS 0).trace =
        t₁ ++ Event.writeCheckpoint :: t₂ ∧
      Event.writeCheckpoint ∉ t₁ ∧
      Event.writeCheckpoint ∉ t₂ ∧
      Event.writeFrame ∉ t₂ ∧
      (nvt21.saveRolling = true →
        t₁.countP isTempStatsEvent = t₁.countP isFrameEvent) :=
  C2_single_checkpoint_after_outputs "run-dir" nvt21 emptyFS 0

/-- C5, amended: every event the stepping loop emits targets the
temporary paths only; the final trajectory path is only ever produced by
a rename, and the final statistics path by a rename when no final
statistics file exists yet — but when one already exists the
concatenated table is written directly onto the final statistics path.
On failure no final path is touched at all. -/
theorem C5_temp_staging_amended (dir : String) (cfg : Config) (fs : FS)
    (physPos : ℕ) :
    ∃ tLoop rows tEnd,
      (simulate dir cfg fs physPos).trace =
        Event.writeInputPdb :: tLoop ++
          Event.writeCheckpoint :: Event.closeTrajectory ::
            Event.writeTempStats rows :: tEnd ∧
      (∀ e ∈ tLoop, touchesFinalPath e = false) ∧
      (((∃ m, (simulate dir cfg fs physPos).outcome =
          Outcome.structuredFailure dir m) ∧ tEnd = []) ∨
       ((simulate dir cfg fs physPos).outcome = Outcome.success ∧
         fs.finalStats = none ∧
         tEnd = [Event.replaceTrajectory, Event.replaceStatistics,
           Event.writeOutputPdb]) ∨
       (∃ old, (simulate dir cfg fs physPos).outcome = Outcome.success ∧
         fs.finalStats = some old ∧
         tEnd = [Event.replaceTrajectory,
           Event.directWriteStatistics (old + rows),
           Event.writeOutputPdb])) := by
  have hloop : ∀ e ∈ (loop cfg cfg.steps 0 0).trace,
      touchesFinalPath e = false :=
    fun e he => loopEvent_not_final e (loop_trace_events cfg _ _ _ e he)
  cases hf : (loop cfg cfg.steps 0 0).failed
  · cases hs : fs.finalStats with
    | none =>
      rw [simulate_success_first dir cfg fs physPos hf hs]
      exact ⟨(loop cfg cfg.steps 0 0).trace,
        min ((loop cfg cfg.steps 0 0).intervals + 1) (expectedStats cfg),
        [Event.replaceTrajectory, Event.replaceStatistics,
          Event.writeOutputPdb],
        by simp, hloop, Or.inr (Or.inl ⟨rfl, rfl, rfl⟩)⟩
    | some old =>
      rw [simulate_success_append dir cfg fs physPos old hf hs]
      exact ⟨(loop cfg cfg.steps 0 0).trace,
        min ((loop cfg cfg.steps 0 0).intervals + 1) (expectedStats cfg),
        [Event.replaceTrajectory,
          Event.directWriteStatistics
            (old + min ((loop cfg cfg.steps 0 0).intervals + 1)
              (expectedStats cfg)),
          Event.writeOutputPdb],
        by simp, hloop, Or.inr (Or.inr ⟨old, rfl, rfl, rfl⟩)⟩
  · rw [simulate_failed dir cfg fs physPos hf]
    exact ⟨(loop cfg cfg.steps 0 0).trace,
      min ((loop cfg cfg.steps 0 0).intervals + 1) (expectedStats cfg),
      [], by simp, hloop, Or.inl ⟨⟨_, rfl⟩, rfl⟩⟩

/-- Witness for C5: the amended temp-file staging property evaluated on
the concrete two-interval NVT run. -/
theorem C5_temp_staging_amended_witness :
    ∃ tLoop rows tEnd,
      (simulate "run-dir" nvt21 emptyFS 0).trace =
        Event.writeInputPdb :: tLoop ++
          Event.writeCheckpoint :: Event.closeTrajectory ::
            Event.writeTempStats rows :: tEnd ∧
      (∀ e ∈ tLoop, touchesFinalPath e = false) ∧
      (((∃ m, (simulate "run-dir" nvt21 emptyFS 0).outcome =
          Outcome.structuredFailure "run-dir" m) ∧ tEnd = []) ∨
       ((simulate "run-dir" nvt21 emptyFS 0).outcome = Outcome.success ∧
         emptyFS.finalStats = none ∧
         tEnd = [Event.replaceTrajectory, Event.replaceStatistics,
           Event.writeOutputPdb]) ∨
       (∃ old, (simulate "run-dir" nvt21 emptyFS 0).outcome =
           Outcome.success ∧
         emptyFS.finalStats = some old ∧
         tEnd = [Event.replaceTrajectory,
           Event.directWriteStatistics (old + rows),
           Event.writeOutputPdb])) :=
  C5_temp_staging_amended "run-dir" nvt21 emptyFS 0

/-- C6: when an exception is injected at reporting index `k` inside the
stepping loop (reachable with a positive output frequency), `_simulate`
catches it, returns the structured failure carrying the working
directory and the captured traceback, and still — after the loop output
and before returning — writes the checkpoint for the last reached
physical state, closes the trajectory stream and performs the final
temporary-statistics write; the final trajectory and statistics paths
are untouched, and the temporary trajectory holds exactly the frames of
the `k` completed intervals. -/
theorem C6_failure_handling (dir : String) (cfg : Config) (fs : FS)
    (physPos k : ℕ) (hfreq : 0 < cfg.outputFrequency)
    (hfail : cfg.failAt = some k)
    (hreach : k * cfg.outputFrequency < cfg.steps) :
    (simulate dir cfg fs physPos).outcome =
      Outcome.structuredFailure dir
        ("The simulation failed unexpectedly: " ++ cfg.traceback) ∧
    (simulate dir cfg fs physPos).trace =
      Event.writeInputPdb :: (loop cfg cfg.steps 0 0).trace ++
        [Event.writeCheckpoint, Event.closeTrajectory,
          Event.writeTempStats (k + 1)] ∧
    (simulate dir cfg fs physPos).fs.checkpoint =
      some (physPos + (loop cfg cfg.steps 0 0).stepsTaken) ∧
    (simulate dir cfg fs physPos).fs.finalTraj = fs.finalTraj ∧
    (simulate dir cfg fs physPos).fs.finalStats = fs.finalStats ∧
    (simulate dir cfg fs physPos).fs.tempTraj =
      some (fs.finalTraj.getD 0 + k) := by
  have hk : k ≤ k * cfg.outputFrequency := Nat.le_mul_of_pos_right k hfreq
  obtain ⟨hfld, hint⟩ := loop_fail cfg k hfail cfg.steps 0 0
    (Nat.zero_le k) (by omega) (by simpa using hreach)
  have hint' : (loop cfg cfg.steps 0 0).intervals = k := by
    simpa using hint
  have hceil : k + 1 ≤ expectedStats cfg := by
    rw [expectedStats, Nat.le_div_iff_mul_le hfreq]
    have hsm : (k + 1) * cfg.outputFrequency =
        k * cfg.outputFrequency + cfg.outputFrequency :=
      Nat.succ_mul k cfg.outputFrequency
    omega
  have hrows : min ((loop cfg cfg.steps 0 0).intervals + 1)
      (expectedStats cfg) = k + 1 := by
    rw [hint']
    exact Nat.min_eq_left hceil
  rw [simulate_failed dir cfg fs physPos hfld]
  refine ⟨rfl, ?_, rfl, rfl, rfl, ?_⟩
  · rw [hrows]
  · rw [hint']

/-- Witness for C6: the failure-handling guarantees evaluated on the
concrete three-interval run that raises at reporting index one. -/
theorem C6_failure_handling_witness :
    (simulate "run-dir" failCfg emptyFS 0).outcome =
      Outcome.structuredFailure "run-dir"
        ("The simulation failed unexpectedly: " ++ failCfg.traceback) ∧
    (simulate "run-dir" failCfg emptyFS 0).fs.finalStats =
      emptyFS.finalStats :=
  ⟨(C6_failure_handling "run-dir" failCfg emptyFS 0 1 (by decide) rfl
      (by decide)).1,
   (C6_failure_handling "run-dir" failCfg emptyFS 0 1 (by decide) rfl
      (by decide)).2.2.2.2.1⟩

end PropEst
